import Mathlib

/-!
Shallow embedding of `src/simulation_with_stats.py` (island cruise-day
simulation) and verification of the specification's claims about it.

Modelling conventions:
  * Python floats that only carry durations/distances become `ℚ`.
  * Python ints become `Int` where the source can go negative
    (location occupancy) and `Nat` where it cannot (counters, ids).
  * Threads are modelled by explicit state passing: each passenger's
    `run` is a function of the passenger, the shared world state and an
    oracle describing the nondeterminism (random rolls, which activity
    was drawn, and whether a ship signal was observed set at each of the
    source's checks).
  * `time.sleep` has no state effect and is dropped; the *order* of the
    state mutations and the branch structure are kept exactly as in the
    source.
-/

/-! ## Time settings (source lines 10-23) -/

def SECONDS_PER_HOUR : ℚ := 5

def SHIP_STAY_HOURS : ℚ := 8

def SHIP_STAY_SECONDS : ℚ := SHIP_STAY_HOURS * SECONDS_PER_HOUR

def LAST_CALL_MINUTES : ℚ := 30

def LAST_CALL_SECONDS : ℚ := (LAST_CALL_MINUTES / 60) * SECONDS_PER_HOUR

def ARRIVAL_WINDOW_START : ℚ := 8

def ARRIVAL_WINDOW_END : ℚ := 10

/-! ## Movement strategies (source lines 65-98)

Each concrete strategy's `travel_time` is translated separately, exactly as
written (`dist / 1.0`, `dist / 3.0`, `dist / 4.0`).  The spec describes the
same thing as a closed function `travel_time(mode, distance) = distance /
speed(mode)`; `speed` below is that spec-side table, to be compared with the
source-side strategies. -/

inductive Mode
  | walk
  | bus
  | taxi
deriving DecidableEq, Repr

def WalkStrategy.travel_time (dist : ℚ) : ℚ := dist / 1

def BusStrategy.travel_time (dist : ℚ) : ℚ := dist / 3

def TaxiStrategy.travel_time (dist : ℚ) : ℚ := dist / 4

/-- Dispatch of `TRANSPORT_STRATEGIES[mode].travel_time`. -/
def travel_time : Mode → ℚ → ℚ
  | .walk, d => WalkStrategy.travel_time d
  | .bus, d => BusStrategy.travel_time d
  | .taxi, d => TaxiStrategy.travel_time d

/-- Spec-side speed table: speeds walk:1, bus:3, taxi:4. -/
def speed : Mode → ℚ
  | .walk => 1
  | .bus => 3
  | .taxi => 4

/-! ## Location (source lines 106-128) -/

structure Location where
  name : String
  max_capacity : Int
  base_duration : ℚ
  distance : ℚ
  count : Int
deriving DecidableEq, Repr

/-- `Location.__init__`: occupancy starts at 0, `base_duration` is
`base_hours * SECONDS_PER_HOUR`. -/
def Location.init (name : String) (max_capacity : Int) (base_hours dist : ℚ) :
    Location :=
  { name := name
    max_capacity := max_capacity
    base_duration := base_hours * SECONDS_PER_HOUR
    distance := dist
    count := 0 }

/-- `Location.try_enter`: under the lock, if `count < max_capacity` then
increment and report success, else report failure and leave the state
unchanged. -/
def Location.try_enter (loc : Location) : Location × Bool :=
  if loc.count < loc.max_capacity then
    ({ loc with count := loc.count + 1 }, true)
  else
    (loc, false)

/-- `Location.leave`: under the lock, decrement `count` unconditionally. -/
def Location.leave (loc : Location) : Location :=
  { loc with count := loc.count - 1 }

/-- The island's fixed set of locations (`Island.__init__`, source lines
502-511). -/
def islandLocations : List Location :=
  [ Location.init "mexican_restaurant" 40 1 1,
    Location.init "italian_restaurant" 40 1 (6/5),
    Location.init "senor_frog_bar" 60 (3/2) (3/2),
    Location.init "irish_bar" 50 (3/2) (13/10),
    Location.init "shopping_street" 80 1 (9/5),
    Location.init "hiking_excursion" 30 2 2,
    Location.init "snorkeling_excursion" 30 2 (11/5),
    Location.init "paradise_beach" 100 2 1 ]

/-- The return-to-ship travel suspension (source line 306):
`TRANSPORT_STRATEGIES["taxi"].travel_time(0.5)`, a constant taking no
input from the passenger's last location. -/
def returnTravelTime : ℚ := TaxiStrategy.travel_time (1/2)

/-! ## Location operation traces (for the occupancy invariant, claim C3) -/

inductive LocOp
  | enterOp
  | leaveOp
deriving DecidableEq, Repr

/-- Apply one operation to a location (the boolean result of `try_enter` is
what the caller sees; the state effect is captured here). -/
def applyOp (loc : Location) : LocOp → Location
  | .enterOp => (loc.try_enter).1
  | .leaveOp => loc.leave

/-- Run a trace of operations from a given location state. -/
def runOps (loc : Location) (ops : List LocOp) : Location :=
  ops.foldl applyOp loc

/-- Number of *successful* `try_enter` calls along the run of `ops` from
`loc`. -/
def successCount (loc : Location) : List LocOp → Nat
  | [] => 0
  | .enterOp :: ops =>
      (if loc.count < loc.max_capacity then 1 else 0)
        + successCount (loc.try_enter).1 ops
  | .leaveOp :: ops => successCount loc.leave ops

/-- Number of `leave` calls in a trace (each `leave` always decrements). -/
def leaveCount (ops : List LocOp) : Nat :=
  ops.count .leaveOp

/-! ## Ship (source lines 372-411) -/

inductive ShipSignal
  | arrived
  | lastCall
  | departed
deriving DecidableEq, Repr

/-- `CruiseShip.__init__`: `arrival_offset = (arrival_hour -
ARRIVAL_WINDOW_START) * SECONDS_PER_HOUR`. -/
def arrivalOffset (arrival_hour : ℚ) : ℚ :=
  (arrival_hour - ARRIVAL_WINDOW_START) * SECONDS_PER_HOUR

/-- Timed trace of signal firings produced by one run of `CruiseShip.run`
(source lines 399-411): sleep `arrival_offset`; set `arrived`; sleep
`SHIP_STAY_SECONDS - LAST_CALL_SECONDS`; set `last_call`; sleep
`LAST_CALL_SECONDS`; set `departed`.  The times are the accumulated sleeps;
each `threading.Event` is false before its instant and true after. -/
def CruiseShip.runTrace (arrival_hour : ℚ) : List (ℚ × ShipSignal) :=
  [ (arrivalOffset arrival_hour, .arrived),
    (arrivalOffset arrival_hour + (SHIP_STAY_SECONDS - LAST_CALL_SECONDS),
      .lastCall),
    (arrivalOffset arrival_hour + (SHIP_STAY_SECONDS - LAST_CALL_SECONDS)
        + LAST_CALL_SECONDS,
      .departed) ]

/-! ## Global stats and registries (source lines 34-50) -/

structure Stats where
  died_cliff : Nat
  died_shark : Nat
  drunk : Nat
  intoxicated : Nat
  popup_delay : Nat
  fell_asleep : Nat
  lost_hiking : Nat
  snorkel_delay : Nat
  stranded : Nat
  boarded : Nat
  total_passengers : Nat
deriving DecidableEq, Repr

def Stats.empty : Stats :=
  { died_cliff := 0, died_shark := 0, drunk := 0, intoxicated := 0
    popup_delay := 0, fell_asleep := 0, lost_hiking := 0, snorkel_delay := 0
    stranded := 0, boarded := 0, total_passengers := 0 }

/-- The shared mutable globals: the stats dictionary and the two
registries (`stranded_passengers`, `dead_passengers`), holding passenger
ids. -/
structure World where
  stats : Stats
  stranded_passengers : List Nat
  dead_passengers : List Nat
deriving DecidableEq, Repr

def World.empty : World :=
  { stats := Stats.empty, stranded_passengers := [], dead_passengers := [] }

/-! ## Passenger (source lines 136-364) -/

/-- Passenger state.  `transport_strategy` is omitted: it only feeds travel
durations, which have no state effect in this embedding (the mode drawn at
each step is carried by the oracle instead). -/
structure Passenger where
  passenger_id : Nat
  ship_id : Nat
  age_group : String
  gender : String
  strength : Nat
  current_location : Option Location
  on_board : Bool
  was_drunk : Bool
  is_dead : Bool
deriving DecidableEq, Repr

/-- `PassengerFactory.create`: demographics are random draws (given here as
arguments), all lifecycle flags start false, and `total_passengers` is
incremented. -/
def PassengerFactory.create (pid ship_id : Nat) (age_group gender : String)
    (strength : Nat) (s : Stats) : Passenger × Stats :=
  ({ passenger_id := pid, ship_id := ship_id, age_group := age_group
     gender := gender, strength := strength, current_location := none
     on_board := false, was_drunk := false, is_dead := false },
   { s with total_passengers := s.total_passengers + 1 })

/-- Check that the pattern is an initial segment of the character list. -/
def charsLeadWith : List Char → List Char → Bool
  | [], _ => true
  | _ :: _, [] => false
  | a :: pat, b :: l => a == b && charsLeadWith pat l

/-- Check that the pattern occurs as a contiguous segment of the list. -/
def charsContain (pat : List Char) : List Char → Bool
  | [] => charsLeadWith pat []
  | c :: l => charsLeadWith pat (c :: l) || charsContain pat l

/-- Python's `sub in s` substring test on strings. -/
def strHasSub (s sub : String) : Bool :=
  charsContain sub.toList s.toList

/-- Outcomes of the random draws made during one `stay_in_activity` call
(`random.random() < probability` comparisons, in source order). -/
structure StayRolls where
  cliffRoll : Bool
  sharkRoll : Bool
  intoxRoll : Bool
  drunkRoll : Bool
  popupRoll : Bool
  lostRoll : Bool
  snorkelRoll : Bool
  asleepRoll : Bool
deriving DecidableEq, Repr

/-- Restaurant incident (source line 245, 5%): `"restaurant" in loc_name`
and the roll hit — bump `intoxicated`. -/
def applyIntox (locName : String) (roll : Bool) (w : World) : World :=
  if strHasSub locName "restaurant" && roll then
    { w with stats := { w.stats with intoxicated := w.stats.intoxicated + 1 } }
  else w

/-- Bar incident (source line 254, 7%): `"bar" in loc_name` and the roll
hit — bump `drunk` and set `was_drunk`. -/
def applyDrunk (locName : String) (roll : Bool) (p : Passenger) (w : World) :
    Passenger × World :=
  if strHasSub locName "bar" && roll then
    ({ p with was_drunk := true },
     { w with stats := { w.stats with drunk := w.stats.drunk + 1 } })
  else (p, w)

/-- Shopping incident (source line 263, 4%): bump `popup_delay`. -/
def applyPopup (locName : String) (roll : Bool) (w : World) : World :=
  if locName = "shopping_street" && roll then
    { w with stats := { w.stats with popup_delay := w.stats.popup_delay + 1 } }
  else w

/-- Hiking incident (source line 271, 3%): bump `lost_hiking`. -/
def applyLost (locName : String) (roll : Bool) (w : World) : World :=
  if locName = "hiking_excursion" && roll then
    { w with stats := { w.stats with lost_hiking := w.stats.lost_hiking + 1 } }
  else w

/-- Snorkeling incident (source line 279, 3%): bump `snorkel_delay`. -/
def applySnorkel (locName : String) (roll : Bool) (w : World) : World :=
  if locName = "snorkeling_excursion" && roll then
    { w with stats := { w.stats with snorkel_delay := w.stats.snorkel_delay + 1 } }
  else w

/-- Beach incident (source line 287, 4%): bump `fell_asleep`. -/
def applyAsleep (locName : String) (roll : Bool) (w : World) : World :=
  if locName = "paradise_beach" && roll then
    { w with stats := { w.stats with fell_asleep := w.stats.fell_asleep + 1 } }
  else w

/-- `Passenger.stay_in_activity` (source lines 203-291): guard on death /
no location; dwell (pure time, dropped); the two rare death events, each
marking the passenger dead, appending to the dead registry, bumping the
cause counter and returning immediately; then the six incident rolls in
source order — restaurant, bar, shopping, hiking, snorkeling, beach — each
bumping its counter (the bar one also sets `was_drunk`). -/
def stay_in_activity (p : Passenger) (w : World) (rolls : StayRolls) :
    Passenger × World :=
  if p.is_dead then (p, w)
  else
    match p.current_location with
    | none => (p, w)
    | some loc =>
      if loc.name = "hiking_excursion" && rolls.cliffRoll then
        ({ p with is_dead := true },
         { w with dead_passengers := w.dead_passengers ++ [p.passenger_id]
                  stats := { w.stats with died_cliff := w.stats.died_cliff + 1 } })
      else if loc.name = "snorkeling_excursion" && rolls.sharkRoll then
        ({ p with is_dead := true },
         { w with dead_passengers := w.dead_passengers ++ [p.passenger_id]
                  stats := { w.stats with died_shark := w.stats.died_shark + 1 } })
      else
        let pw := applyDrunk loc.name rolls.drunkRoll p
          (applyIntox loc.name rolls.intoxRoll w)
        (pw.1,
         applyAsleep loc.name rolls.asleepRoll
          (applySnorkel loc.name rolls.snorkelRoll
            (applyLost loc.name rolls.lostRoll
              (applyPopup loc.name rolls.popupRoll pw.2))))

/-- Observable events of a passenger's run, used to state the lifecycle
claims: the call of the return phase, the phase's internal suspensions and
decision, and the append to the stranded registry. -/
inductive PEvent
  | returnCall
  | drunkDelay
  | taxiRide
  | boardEvt
  | missEvt
  | regAppend
deriving DecidableEq, Repr

/-- Random draws and signal observations made inside `return_to_ship`:
the 5% drunk-reaction roll, and the value of `departed_event.is_set()` at
the post-suspension check. -/
structure ReturnEnv where
  drunkRoll : Bool
  departed : Bool
deriving DecidableEq, Repr

/-- Result of a passenger-level run fragment: final passenger, final shared
world, and the list of observable events in order. -/
structure RunResult where
  p : Passenger
  w : World
  evs : List PEvent
deriving DecidableEq, Repr

/-- `Passenger.return_to_ship` (source lines 294-317): guard on death; then
the optional drunk-reaction suspension (only when `was_drunk` and the 5%
roll hits); then the mandatory taxi suspension; then re-check `departed`:
if not set, board and bump `boarded`; else bump `stranded`. -/
def return_to_ship (p : Passenger) (w : World) (env : ReturnEnv) : RunResult :=
  if p.is_dead then ⟨p, w, []⟩
  else
    let evs0 := if p.was_drunk && env.drunkRoll then [PEvent.drunkDelay] else []
    let evs1 := evs0 ++ [PEvent.taxiRide]
    if !env.departed then
      ⟨{ p with on_board := true },
       { w with stats := { w.stats with boarded := w.stats.boarded + 1 } },
       evs1 ++ [PEvent.boardEvt]⟩
    else
      ⟨p,
       { w with stats := { w.stats with stranded := w.stats.stranded + 1 } },
       evs1 ++ [PEvent.missEvt]⟩

/-- Oracle for one iteration of the ashore loop in `Passenger.run`: the
index drawn by `choose_activity`, the transport mode drawn by
`choose_transport`, the stay's random rolls, the value of
`last_call_event.is_set()` at the bottom-of-loop check, and the return
phase's draws (used only when last call was observed). -/
structure IterEnv where
  locIdx : Nat
  mode : Mode
  rolls : StayRolls
  lastCall : Bool
  ret : ReturnEnv
deriving DecidableEq, Repr

/-- Whether the ashore loop continues to its next iteration or the run ends
(by death, or by the `break` after the return phase). -/
inductive IterExit
  | next
  | halt
deriving DecidableEq, Repr

/-- Result of one ashore-loop iteration: final passenger, world, the state
of the location that was interacted with, events, and how the iteration
ended. -/
structure IterResult where
  p : Passenger
  w : World
  loc : Location
  evs : List PEvent
  exit : IterExit
deriving DecidableEq, Repr

/-- `Passenger.choose_activity` draws a weighted random location; the
oracle supplies the drawn index (the weights are configuration, not core
logic). -/
def choose_activity (locations : List Location) (locIdx : Nat) : Location :=
  locations.getD locIdx (Location.init "none" 0 0 0)

/-- `Passenger.go_to_location` (source lines 192-200): guard on death;
draw a mode; suspend for the travel time (no state effect); then
`try_enter`, and on success record the location as occupied. -/
def go_to_location (p : Passenger) (loc : Location) (mode : Mode) :
    Passenger × Location :=
  if p.is_dead then (p, loc)
  else
    let res := loc.try_enter
    if res.2 then ({ p with current_location := some res.1 }, res.1)
    else (p, res.1)

/-- One iteration of the ashore `while` loop of `Passenger.run` (source
lines 339-358): choose/travel/enter; if a location was entered, stay there,
and on death return immediately — *without* calling `leave`; otherwise
leave the location and clear `current_location`; finally, if last call is
observed, run the return phase and break. -/
def runIter (p : Passenger) (w : World) (loc : Location) (env : IterEnv) :
    IterResult :=
  let pl := go_to_location p loc env.mode
  match pl.1.current_location with
  | some _ =>
      let pw := stay_in_activity pl.1 w env.rolls
      if pw.1.is_dead then ⟨pw.1, pw.2, pl.2, [], .halt⟩
      else
        let loc2 := pl.2.leave
        let p3 := { pw.1 with current_location := none }
        if env.lastCall then
          let r := return_to_ship p3 pw.2 env.ret
          ⟨r.p, r.w, loc2, PEvent.returnCall :: r.evs, .halt⟩
        else ⟨p3, pw.2, loc2, [], .next⟩
  | none =>
      if env.lastCall then
        let r := return_to_ship pl.1 w env.ret
        ⟨r.p, r.w, pl.2, PEvent.returnCall :: r.evs, .halt⟩
      else ⟨pl.1, w, pl.2, [], .next⟩

/-- The ashore `while not departed` loop of `Passenger.run`.  The oracle
list carries one `IterEnv` per iteration in which `departed_event.is_set()`
read false at the top; when the list is exhausted the loop condition reads
`departed` as set and the loop exits.  Each iteration draws its location
fresh from the island's list (the cross-iteration occupancy sharing between
concurrent passengers is claim C3's trace model; here a single passenger's
lifecycle is in view and the location state is reported per iteration). -/
def runLoop (p : Passenger) (w : World) : List IterEnv → RunResult
  | [] => ⟨p, w, []⟩
  | env :: rest =>
    if p.is_dead then ⟨p, w, []⟩
    else
      let r := runIter p w (choose_activity islandLocations env.locIdx) env
      match r.exit with
      | .halt => ⟨r.p, r.w, r.evs⟩
      | .next =>
          let k := runLoop r.p r.w rest
          ⟨k.p, k.w, r.evs ++ k.evs⟩

/-- `Passenger.run` (source lines 320-364): guard on death (the wait for
`arrived` has no state effect and the post-wait death re-check collapses
into the same guard); the ashore loop; then, if neither boarded nor dead,
append to the stranded registry. -/
def Passenger.runSim (p : Passenger) (w : World) (iters : List IterEnv) :
    RunResult :=
  if p.is_dead then ⟨p, w, []⟩
  else
    let r := runLoop p w iters
    if !r.p.on_board && !r.p.is_dead then
      ⟨r.p,
       { r.w with stranded_passengers := r.w.stranded_passengers ++ [r.p.passenger_id] },
       r.evs ++ [PEvent.regAppend]⟩
    else r

/-! ## Hunger games (source lines 457-492) -/

structure Fighter where
  passenger_id : Nat
  strength : Nat
deriving DecidableEq, Repr

structure HGMatch where
  a : Fighter
  b : Fighter
  winner : Fighter
deriving DecidableEq, Repr

/-- One match: `r = random.randint(1, a.strength + b.strength)` (both ends
inclusive); `winner = a if r <= a.strength else b`. -/
def fightWinner (a b : Fighter) (r : Nat) : Fighter :=
  if r ≤ a.strength then a else b

/-- The tournament loop (source lines 473-486).  The fighter list is the
Python list viewed from its tail: `fighters.pop()` twice takes the first
two entries here, and `fighters.append(winner)` pushes the winner back on
the front.  `draw k` is the `randint` result of the `k`-th match. -/
def hgLoop (draw : Nat → Nat) (k : Nat) : List Fighter → List HGMatch × List Fighter
  | a :: b :: rest =>
      let wn := fightWinner a b (draw k)
      let res := hgLoop draw (k + 1) (wn :: rest)
      (⟨a, b, wn⟩ :: res.1, res.2)
  | fs => ([], fs)
termination_by fs => fs.length

/-- `HungerGames.run`: the pre-shuffled fighter stack is the input (the
shuffle is a uniformly random permutation of the stranded snapshot); the
survivor, if any, is the head of the final pool (`fighters[0]`). -/
def HungerGames.run (draw : Nat → Nat) (fighters : List Fighter) :
    List HGMatch × List Fighter :=
  hgLoop draw 0 fighters

/-! ## Theorems: claims C4, C8, C9, C10 -/

/-- C4: `Location.try_enter` returns `true` and increments occupancy by
exactly one precisely when `count < max_capacity` at call time; otherwise it
returns `false` and leaves the whole location state unchanged (it is a total
function, so it never blocks). -/
theorem claim4_try_enter (loc : Location) :
    ((loc.try_enter).2 = true ↔ loc.count < loc.max_capacity)
    ∧ ((loc.try_enter).2 = true →
        (loc.try_enter).1 =
          { loc with count := loc.count + 1 })
    ∧ ((loc.try_enter).2 = false → (loc.try_enter).1 = loc) := by
  unfold Location.try_enter
  by_cases h : loc.count < loc.max_capacity <;> simp [h]

/-- Witness for C4 at a concrete location with spare capacity. -/
theorem claim4_try_enter_witness :
    ((Location.init "paradise_beach" 100 2 1).try_enter).2 = true
    ∧ ((Location.init "paradise_beach" 100 2 1).try_enter).1.count = 1 := by
  have h := claim4_try_enter (Location.init "paradise_beach" 100 2 1)
  refine ⟨h.1.mpr (by decide), ?_⟩
  have h2 := h.2.1 (h.1.mpr (by decide))
  rw [h2]
  simp [Location.init]

/-- C8: each strategy's `travel_time` equals `distance / speed(mode)` with
the spec's speed table walk:1, bus:3, taxi:4; the function is pure (it is a
plain function of mode and distance, with no other state). -/
theorem claim8_travel_time :
    speed .walk = 1 ∧ speed .bus = 3 ∧ speed .taxi = 4
    ∧ (∀ d : ℚ, WalkStrategy.travel_time d = d / speed .walk)
    ∧ (∀ d : ℚ, BusStrategy.travel_time d = d / speed .bus)
    ∧ (∀ d : ℚ, TaxiStrategy.travel_time d = d / speed .taxi)
    ∧ (∀ (m : Mode) (d : ℚ), travel_time m d = d / speed m) := by
  refine ⟨rfl, rfl, rfl, fun d => rfl, fun d => rfl, fun d => rfl, fun m d => ?_⟩
  cases m <;> rfl

/-- C9: the return leg always uses taxi speed on the fixed distance 0.5, so
the return travel time is the constant 1/8 (= 0.125), for every location the
passenger might have visited last, independent of that location's configured
distance. -/
theorem claim9_return_travel :
    returnTravelTime = 1/8
    ∧ ∀ loc ∈ islandLocations, returnTravelTime = 1/8 := by
  refine ⟨by norm_num [returnTravelTime, TaxiStrategy.travel_time], ?_⟩
  intro loc _
  norm_num [returnTravelTime, TaxiStrategy.travel_time]

/-- Witness for C9 at the hiking location (distance 2): the return leg is
still 1/8. -/
theorem claim9_return_travel_witness :
    Location.init "hiking_excursion" 30 2 2 ∈ islandLocations
    ∧ returnTravelTime = 1/8 :=
  ⟨by simp [islandLocations],
   (claim9_return_travel).2 (Location.init "hiking_excursion" 30 2 2)
     (by simp [islandLocations])⟩

/-- C10: `Location.leave` decrements unconditionally, with no lower-bound
guard: on any location it subtracts one from `count`, and in particular on a
location with occupancy 0 it produces occupancy -1. -/
theorem claim10_leave_unguarded (loc : Location) :
    (loc.leave).count = loc.count - 1
    ∧ (loc.count = 0 → (loc.leave).count = -1) := by
  refine ⟨rfl, fun h => ?_⟩
  simp [Location.leave, h]

/-- Witness for C10 on a freshly initialised (occupancy 0) location. -/
theorem claim10_leave_unguarded_witness :
    (Location.init "irish_bar" 50 (3/2) (13/10)).count = 0
    ∧ ((Location.init "irish_bar" 50 (3/2) (13/10)).leave).count = -1 :=
  ⟨by decide,
   (claim10_leave_unguarded (Location.init "irish_bar" 50 (3/2) (13/10))).2
     (by decide)⟩

/-! ## Theorems: claim C3 (occupancy invariant) -/

theorem applyOp_max_capacity (loc : Location) (op : LocOp) :
    (applyOp loc op).max_capacity = loc.max_capacity := by
  cases op <;>
    simp only [applyOp, Location.try_enter, Location.leave] <;>
    split <;> rfl

theorem runOps_max_capacity (loc : Location) (ops : List LocOp) :
    (runOps loc ops).max_capacity = loc.max_capacity := by
  induction ops generalizing loc with
  | nil => rfl
  | cons op ops ih =>
      simp only [runOps, List.foldl_cons] at *
      rw [ih, applyOp_max_capacity]

theorem runOps_count_eq (loc : Location) (ops : List LocOp) :
    (runOps loc ops).count
      = loc.count + (successCount loc ops : Int) - (leaveCount ops : Int) := by
  induction ops generalizing loc with
  | nil => simp [runOps, successCount, leaveCount]
  | cons op ops ih =>
      cases op with
      | enterOp =>
          simp only [runOps, List.foldl_cons, applyOp] at *
          rw [ih]
          simp only [successCount, leaveCount, List.count_cons, Location.try_enter]
          split <;> simp <;> push_cast <;> ring
      | leaveOp =>
          simp only [runOps, List.foldl_cons, applyOp] at *
          rw [ih]
          simp only [successCount, leaveCount, List.count_cons, Location.leave]
          simp
          push_cast
          ring

theorem runOps_upper (loc : Location) (ops : List LocOp)
    (h : loc.count ≤ loc.max_capacity) :
    (runOps loc ops).count ≤ loc.max_capacity := by
  induction ops generalizing loc with
  | nil => exact h
  | cons op ops ih =>
      simp only [runOps, List.foldl_cons] at *
      have hcap := applyOp_max_capacity loc op
      have hstep : (applyOp loc op).count ≤ (applyOp loc op).max_capacity := by
        cases op with
        | enterOp =>
            simp only [applyOp, Location.try_enter]
            split <;> simp_all <;> omega
        | leaveOp =>
            simp only [applyOp, Location.leave]
            omega
      have := ih (applyOp loc op) hstep
      rwa [hcap] at this

/-- C3: starting from a fresh location (occupancy 0, non-negative capacity),
if along every prefix of the trace the number of `leave` calls never exceeds
the number of successful `try_enter` calls (the 1:1 pairing protocol), then
after every prefix of the trace — i.e. at every observable instant —
`0 ≤ occupancy ≤ max_capacity`. -/
theorem claim3_occupancy (loc : Location) (ops : List LocOp)
    (hc : loc.count = 0) (hcap : 0 ≤ loc.max_capacity)
    (hproto : ∀ n ≤ ops.length,
        leaveCount (ops.take n) ≤ successCount loc (ops.take n)) :
    ∀ n, 0 ≤ (runOps loc (ops.take n)).count
       ∧ (runOps loc (ops.take n)).count ≤ loc.max_capacity := by
  intro n
  have hn : leaveCount (ops.take n) ≤ successCount loc (ops.take n) := by
    by_cases h : n ≤ ops.length
    · exact hproto n h
    · have hlen : ops.length ≤ n := le_of_not_le h
      rw [List.take_of_length_le hlen]
      have := hproto ops.length le_rfl
      rwa [List.take_length] at this
  constructor
  · have heq := runOps_count_eq loc (ops.take n)
    omega
  · exact runOps_upper loc (ops.take n) (by omega)

/-- Witness for C3: a fresh shopping street with the trace
[enter, leave, enter]; occupancy after the prefix of length 2 is within
bounds. -/
theorem claim3_occupancy_witness :
    ((Location.init "shopping_street" 80 1 (9/5)).count = 0
      ∧ 0 ≤ (Location.init "shopping_street" 80 1 (9/5)).max_capacity
      ∧ ∀ n ≤ [LocOp.enterOp, LocOp.leaveOp, LocOp.enterOp].length,
          leaveCount ([LocOp.enterOp, LocOp.leaveOp, LocOp.enterOp].take n)
            ≤ successCount (Location.init "shopping_street" 80 1 (9/5))
                ([LocOp.enterOp, LocOp.leaveOp, LocOp.enterOp].take n))
    ∧ (0 ≤ (runOps (Location.init "shopping_street" 80 1 (9/5))
            ([LocOp.enterOp, LocOp.leaveOp, LocOp.enterOp].take 2)).count
      ∧ (runOps (Location.init "shopping_street" 80 1 (9/5))
            ([LocOp.enterOp, LocOp.leaveOp, LocOp.enterOp].take 2)).count
          ≤ (Location.init "shopping_street" 80 1 (9/5)).max_capacity) :=
  ⟨⟨by decide, by decide, by decide⟩,
   claim3_occupancy (Location.init "shopping_street" 80 1 (9/5))
     [LocOp.enterOp, LocOp.leaveOp, LocOp.enterOp]
     (by decide) (by decide) (by decide) 2⟩

/-! ## Theorems: claim C6 (ship signal ordering) -/

/-- C6: in every ship run, the signal trace is exactly
[arrived, lastCall, departed] — so each signal transitions false→true
exactly once — and the firing instants are strictly increasing, so
`arrived` fires strictly before `last_call`, which fires strictly before
`departed`. -/
theorem claim6_ship_signals (arrival_hour : ℚ) :
    ((CruiseShip.runTrace arrival_hour).map Prod.snd
        = [.arrived, .lastCall, .departed])
    ∧ (((CruiseShip.runTrace arrival_hour).map Prod.snd).count .arrived = 1
      ∧ ((CruiseShip.runTrace arrival_hour).map Prod.snd).count .lastCall = 1
      ∧ ((CruiseShip.runTrace arrival_hour).map Prod.snd).count .departed = 1)
    ∧ List.Chain' (· < ·) ((CruiseShip.runTrace arrival_hour).map Prod.fst) := by
  refine ⟨by simp [CruiseShip.runTrace], ⟨?_, ?_, ?_⟩, ?_⟩
  · simp [CruiseShip.runTrace]
  · simp [CruiseShip.runTrace]
  · simp [CruiseShip.runTrace]
  · simp only [CruiseShip.runTrace, List.map_cons, List.map_nil,
      List.chain'_cons, List.chain'_singleton, and_true]
    constructor
    · norm_num [SHIP_STAY_SECONDS, SHIP_STAY_HOURS, LAST_CALL_SECONDS,
        LAST_CALL_MINUTES, SECONDS_PER_HOUR]
    · norm_num [LAST_CALL_SECONDS, LAST_CALL_MINUTES, SECONDS_PER_HOUR]

/-! ## Theorems: claim C2 (occupancy slot on death) -/

/-- C2 fails on the code: a passenger who successfully enters
`hiking_excursion` (occupancy 0 → 1) and then hits the fatal cliff roll is
marked dead, but the iteration exits on the death path of `Passenger.run`
*before* `current_location.leave()` — the final occupancy is still 1, not
0.  By contrast, the identical iteration without the fatal roll does
release the slot (occupancy back to 0). -/
theorem claim2_death_keeps_slot :
    (runIter
        (PassengerFactory.create 5001 5 "adult" "male" 50 Stats.empty).1
        World.empty
        (Location.init "hiking_excursion" 30 2 2)
        { locIdx := 5, mode := .walk
          rolls := { cliffRoll := true, sharkRoll := false, intoxRoll := false
                     drunkRoll := false, popupRoll := false, lostRoll := false
                     snorkelRoll := false, asleepRoll := false }
          lastCall := false
          ret := { drunkRoll := false, departed := false } }).p.is_dead = true
    ∧ (runIter
        (PassengerFactory.create 5001 5 "adult" "male" 50 Stats.empty).1
        World.empty
        (Location.init "hiking_excursion" 30 2 2)
        { locIdx := 5, mode := .walk
          rolls := { cliffRoll := true, sharkRoll := false, intoxRoll := false
                     drunkRoll := false, popupRoll := false, lostRoll := false
                     snorkelRoll := false, asleepRoll := false }
          lastCall := false
          ret := { drunkRoll := false, departed := false } }).loc.count = 1
    ∧ (runIter
        (PassengerFactory.create 5001 5 "adult" "male" 50 Stats.empty).1
        World.empty
        (Location.init "hiking_excursion" 30 2 2)
        { locIdx := 5, mode := .walk
          rolls := { cliffRoll := false, sharkRoll := false, intoxRoll := false
                     drunkRoll := false, popupRoll := false, lostRoll := false
                     snorkelRoll := false, asleepRoll := false }
          lastCall := false
          ret := { drunkRoll := false, departed := false } }).loc.count = 0 := by
  refine ⟨?_, ?_, ?_⟩ <;> decide

/-! ## Theorems: claim C7 (tournament shape and match odds) -/

theorem hgLoop_lengths (draw : Nat → Nat) :
    ∀ (n k : Nat) (fs : List Fighter), fs.length ≤ n →
      (hgLoop draw k fs).1.length = fs.length - 1
      ∧ (hgLoop draw k fs).2.length = min fs.length 1 := by
  intro n
  induction n with
  | zero =>
      intro k fs h
      have : fs = [] := List.length_eq_zero.mp (Nat.le_zero.mp h)
      subst this
      simp [hgLoop]
  | succ n ih =>
      intro k fs h
      match fs with
      | [] => simp [hgLoop]
      | [a] => simp [hgLoop]
      | a :: b :: rest =>
          have hlen : (fightWinner a b (draw k) :: rest).length ≤ n := by
            simp at h ⊢
            omega
          have := ih (k + 1) (fightWinner a b (draw k) :: rest) hlen
          simp only [hgLoop] at *
          simp at this ⊢
          omega

/-- C7: with no stranded combatants there is no match and no survivor; with
N ≥ 1 combatants exactly N−1 matches occur and exactly one combatant
remains (the survivor `fighters[0]`); and in one match between distinct
combatants `a` and `b`, out of the `a.strength + b.strength` equally likely
draws `r ∈ [1, a.strength + b.strength]` exactly `a.strength` make `a` the
winner — i.e. `a` wins with probability
`a.strength / (a.strength + b.strength)`. -/
theorem claim7_tournament (draw : Nat → Nat) (fs : List Fighter) :
    (HungerGames.run draw ([] : List Fighter) = ([], [])
      ∧ ((HungerGames.run draw ([] : List Fighter)).2).head? = none)
    ∧ (fs ≠ [] →
        (HungerGames.run draw fs).1.length = fs.length - 1
        ∧ (HungerGames.run draw fs).2.length = 1)
    ∧ (∀ a b : Fighter, a ≠ b →
        ((Finset.Icc 1 (a.strength + b.strength)).filter
            (fun r => fightWinner a b r = a)).card = a.strength) := by
  refine ⟨⟨by simp [HungerGames.run, hgLoop], by simp [HungerGames.run, hgLoop]⟩,
    fun hne => ?_, fun a b hab => ?_⟩
  · have h := hgLoop_lengths draw fs.length 0 fs le_rfl
    have hpos : 1 ≤ fs.length := by
      cases fs with
      | nil => exact absurd rfl hne
      | cons x xs => simp
    exact ⟨h.1, by rw [HungerGames.run, h.2]; omega⟩
  · have hiff : ∀ r : ℕ, fightWinner a b r = a ↔ r ≤ a.strength := by
      intro r
      unfold fightWinner
      split
      · simp [*]
      · constructor
        · intro h'
          exact absurd h'.symm hab
        · intro h'
          omega
    have hset : (Finset.Icc 1 (a.strength + b.strength)).filter
        (fun r => fightWinner a b r = a) = Finset.Icc 1 a.strength := by
      ext r
      simp only [Finset.mem_filter, Finset.mem_Icc, hiff]
      omega
    rw [hset, Nat.card_Icc]
    omega

/-! ## Theorems: passenger-run lemmas (for claims C1 and C5) -/

theorem go_to_location_flags (p : Passenger) (loc : Location) (mode : Mode) :
    ((go_to_location p loc mode).1.is_dead = p.is_dead)
    ∧ ((go_to_location p loc mode).1.on_board = p.on_board)
    ∧ ((go_to_location p loc mode).1.was_drunk = p.was_drunk)
    ∧ ((go_to_location p loc mode).1.passenger_id = p.passenger_id) := by
  unfold go_to_location
  split
  · exact ⟨rfl, rfl, rfl, rfl⟩
  · dsimp only
    split
    · exact ⟨rfl, rfl, rfl, rfl⟩
    · exact ⟨rfl, rfl, rfl, rfl⟩

theorem applyIntox_frame (n : String) (r : Bool) (w : World) :
    ((applyIntox n r w).stats.boarded = w.stats.boarded)
    ∧ ((applyIntox n r w).stats.stranded = w.stats.stranded)
    ∧ ((applyIntox n r w).stranded_passengers = w.stranded_passengers) := by
  unfold applyIntox
  split
  · exact ⟨rfl, rfl, rfl⟩
  · exact ⟨rfl, rfl, rfl⟩

theorem applyDrunk_frame (n : String) (r : Bool) (p : Passenger) (w : World) :
    ((applyDrunk n r p w).1.on_board = p.on_board)
    ∧ ((applyDrunk n r p w).1.passenger_id = p.passenger_id)
    ∧ ((applyDrunk n r p w).1.is_dead = p.is_dead)
    ∧ ((applyDrunk n r p w).2.stats.boarded = w.stats.boarded)
    ∧ ((applyDrunk n r p w).2.stats.stranded = w.stats.stranded)
    ∧ ((applyDrunk n r p w).2.stranded_passengers = w.stranded_passengers) := by
  unfold applyDrunk
  split
  · exact ⟨rfl, rfl, rfl, rfl, rfl, rfl⟩
  · exact ⟨rfl, rfl, rfl, rfl, rfl, rfl⟩

theorem applyPopup_frame (n : String) (r : Bool) (w : World) :
    ((applyPopup n r w).stats.boarded = w.stats.boarded)
    ∧ ((applyPopup n r w).stats.stranded = w.stats.stranded)
    ∧ ((applyPopup n r w).stranded_passengers = w.stranded_passengers) := by
  unfold applyPopup
  split
  · exact ⟨rfl, rfl, rfl⟩
  · exact ⟨rfl, rfl, rfl⟩

theorem applyLost_frame (n : String) (r : Bool) (w : World) :
    ((applyLost n r w).stats.boarded = w.stats.boarded)
    ∧ ((applyLost n r w).stats.stranded = w.stats.stranded)
    ∧ ((applyLost n r w).stranded_passengers = w.stranded_passengers) := by
  unfold applyLost
  split
  · exact ⟨rfl, rfl, rfl⟩
  · exact ⟨rfl, rfl, rfl⟩

theorem applySnorkel_frame (n : String) (r : Bool) (w : World) :
    ((applySnorkel n r w).stats.boarded = w.stats.boarded)
    ∧ ((applySnorkel n r w).stats.stranded = w.stats.stranded)
    ∧ ((applySnorkel n r w).stranded_passengers = w.stranded_passengers) := by
  unfold applySnorkel
  split
  · exact ⟨rfl, rfl, rfl⟩
  · exact ⟨rfl, rfl, rfl⟩

theorem applyAsleep_frame (n : String) (r : Bool) (w : World) :
    ((applyAsleep n r w).stats.boarded = w.stats.boarded)
    ∧ ((applyAsleep n r w).stats.stranded = w.stats.stranded)
    ∧ ((applyAsleep n r w).stranded_passengers = w.stranded_passengers) := by
  unfold applyAsleep
  split
  · exact ⟨rfl, rfl, rfl⟩
  · exact ⟨rfl, rfl, rfl⟩

theorem stay_in_activity_frame (p : Passenger) (w : World) (rolls : StayRolls) :
    ((stay_in_activity p w rolls).1.on_board = p.on_board)
    ∧ ((stay_in_activity p w rolls).1.passenger_id = p.passenger_id)
    ∧ ((stay_in_activity p w rolls).2.stats.boarded = w.stats.boarded)
    ∧ ((stay_in_activity p w rolls).2.stats.stranded = w.stats.stranded)
    ∧ ((stay_in_activity p w rolls).2.stranded_passengers = w.stranded_passengers) := by
  unfold stay_in_activity
  split
  · exact ⟨rfl, rfl, rfl, rfl, rfl⟩
  split
  · exact ⟨rfl, rfl, rfl, rfl, rfl⟩
  split
  · exact ⟨rfl, rfl, rfl, rfl, rfl⟩
  split
  · exact ⟨rfl, rfl, rfl, rfl, rfl⟩
  refine ⟨(applyDrunk_frame _ _ _ _).1, (applyDrunk_frame _ _ _ _).2.1, ?_, ?_, ?_⟩
  · rw [(applyAsleep_frame _ _ _).1, (applySnorkel_frame _ _ _).1,
      (applyLost_frame _ _ _).1, (applyPopup_frame _ _ _).1,
      (applyDrunk_frame _ _ _ _).2.2.2.1, (applyIntox_frame _ _ _).1]
  · rw [(applyAsleep_frame _ _ _).2.1, (applySnorkel_frame _ _ _).2.1,
      (applyLost_frame _ _ _).2.1, (applyPopup_frame _ _ _).2.1,
      (applyDrunk_frame _ _ _ _).2.2.2.2.1, (applyIntox_frame _ _ _).2.1]
  · rw [(applyAsleep_frame _ _ _).2.2, (applySnorkel_frame _ _ _).2.2,
      (applyLost_frame _ _ _).2.2, (applyPopup_frame _ _ _).2.2,
      (applyDrunk_frame _ _ _ _).2.2.2.2.2, (applyIntox_frame _ _ _).2.2]

theorem return_to_ship_frame (p : Passenger) (w : World) (env : ReturnEnv) :
    ((return_to_ship p w env).p.is_dead = p.is_dead)
    ∧ ((return_to_ship p w env).p.was_drunk = p.was_drunk)
    ∧ ((return_to_ship p w env).p.passenger_id = p.passenger_id)
    ∧ ((return_to_ship p w env).w.stranded_passengers = w.stranded_passengers)
    ∧ ((return_to_ship p w env).w.dead_passengers = w.dead_passengers) := by
  unfold return_to_ship
  split
  · exact ⟨rfl, rfl, rfl, rfl, rfl⟩
  · dsimp only
    split
    · exact ⟨rfl, rfl, rfl, rfl, rfl⟩
    · exact ⟨rfl, rfl, rfl, rfl, rfl⟩

theorem return_to_ship_no_call (p : Passenger) (w : World) (env : ReturnEnv) :
    PEvent.returnCall ∉ (return_to_ship p w env).evs
    ∧ PEvent.regAppend ∉ (return_to_ship p w env).evs := by
  unfold return_to_ship
  split
  · simp
  · dsimp only
    by_cases hwd : (p.was_drunk && env.drunkRoll) = true <;>
      by_cases hdep : (!env.departed) = true <;>
      simp [hwd, hdep]

theorem return_to_ship_boardEvt (p : Passenger) (w : World) (env : ReturnEnv)
    (hd : p.is_dead = false) :
    (PEvent.boardEvt ∈ (return_to_ship p w env).evs ↔ env.departed = false) := by
  unfold return_to_ship
  rw [hd]
  cases hdep : env.departed <;>
    by_cases hwd : (p.was_drunk && env.drunkRoll) = true <;>
    simp [hwd, hdep]

theorem return_to_ship_missEvt (p : Passenger) (w : World) (env : ReturnEnv)
    (hd : p.is_dead = false) :
    (PEvent.missEvt ∈ (return_to_ship p w env).evs ↔ env.departed = true) := by
  unfold return_to_ship
  rw [hd]
  cases hdep : env.departed <;>
    by_cases hwd : (p.was_drunk && env.drunkRoll) = true <;>
    simp [hwd, hdep]

theorem return_to_ship_drunkDelay (p : Passenger) (w : World) (env : ReturnEnv) :
    PEvent.drunkDelay ∈ (return_to_ship p w env).evs → p.was_drunk = true := by
  unfold return_to_ship
  split
  · simp
  · dsimp only
    by_cases hwd : (p.was_drunk && env.drunkRoll) = true
    · have hb : p.was_drunk = true := by
        have hwd2 := hwd
        simp only [Bool.and_eq_true] at hwd2
        exact hwd2.1
      by_cases hdep : (!env.departed) = true <;> simp [hwd, hdep, hb]
    · by_cases hdep : (!env.departed) = true <;> simp [hwd, hdep]

theorem return_to_ship_board (p : Passenger) (w : World) (env : ReturnEnv)
    (hd : p.is_dead = false) (hdep : env.departed = false) :
    ((return_to_ship p w env).p.on_board = true)
    ∧ ((return_to_ship p w env).w.stats.boarded = w.stats.boarded + 1)
    ∧ ((return_to_ship p w env).w.stats.stranded = w.stats.stranded) := by
  unfold return_to_ship
  rw [hd, hdep]
  by_cases hwd : (p.was_drunk && env.drunkRoll) = true <;> simp [hwd]

theorem return_to_ship_miss (p : Passenger) (w : World) (env : ReturnEnv)
    (hd : p.is_dead = false) (hdep : env.departed = true) :
    ((return_to_ship p w env).p.on_board = p.on_board)
    ∧ ((return_to_ship p w env).w.stats.stranded = w.stats.stranded + 1)
    ∧ ((return_to_ship p w env).w.stats.boarded = w.stats.boarded) := by
  unfold return_to_ship
  rw [hd, hdep]
  by_cases hwd : (p.was_drunk && env.drunkRoll) = true <;> simp [hwd]

theorem return_to_ship_evs_shape (p : Passenger) (w : World) (env : ReturnEnv)
    (hd : p.is_dead = false) :
    ∃ d : List PEvent,
      (d = [] ∨ (p.was_drunk = true ∧ d = [PEvent.drunkDelay]))
      ∧ (return_to_ship p w env).evs
          = d ++ [PEvent.taxiRide]
            ++ [if env.departed then PEvent.missEvt else PEvent.boardEvt] := by
  unfold return_to_ship
  rw [hd]
  by_cases hwd : (p.was_drunk && env.drunkRoll) = true
  · have hb : p.was_drunk = true := by
      have hwd2 := hwd
      simp only [Bool.and_eq_true] at hwd2
      exact hwd2.1
    refine ⟨[PEvent.drunkDelay], Or.inr ⟨hb, rfl⟩, ?_⟩
    cases hdep : env.departed <;> simp [hwd, hdep]
  · refine ⟨[], Or.inl rfl, ?_⟩
    cases hdep : env.departed <;> simp [hwd, hdep]

/-- One ashore-loop iteration ends in one of three ways: continue to the
next iteration (no events, flags and outcome counters untouched), die
during the stay (no events, the run halts), or observe last call, run the
return phase and halt. -/
theorem runIter_cases (p : Passenger) (w : World) (loc : Location) (env : IterEnv)
    (hd : p.is_dead = false) :
    (∃ p1 w1 loc1,
        runIter p w loc env = ⟨p1, w1, loc1, [], .next⟩
        ∧ p1.is_dead = false ∧ p1.on_board = p.on_board
        ∧ w1.stats.boarded = w.stats.boarded
        ∧ w1.stats.stranded = w.stats.stranded
        ∧ w1.stranded_passengers = w.stranded_passengers)
    ∨ (∃ p1 w1 loc1,
        runIter p w loc env = ⟨p1, w1, loc1, [], .halt⟩
        ∧ p1.is_dead = true ∧ p1.on_board = p.on_board
        ∧ w1.stats.boarded = w.stats.boarded
        ∧ w1.stats.stranded = w.stats.stranded
        ∧ w1.stranded_passengers = w.stranded_passengers)
    ∨ (∃ (q : Passenger) (v : World) (loc1 : Location),
        q.is_dead = false ∧ q.on_board = p.on_board
        ∧ runIter p w loc env =
            ⟨(return_to_ship q v env.ret).p, (return_to_ship q v env.ret).w, loc1,
              PEvent.returnCall :: (return_to_ship q v env.ret).evs, .halt⟩
        ∧ v.stats.boarded = w.stats.boarded
        ∧ v.stats.stranded = w.stats.stranded
        ∧ v.stranded_passengers = w.stranded_passengers) := by
  have hgo := go_to_location_flags p loc env.mode
  rcases hcl : (go_to_location p loc env.mode).1.current_location with _ | l
  · by_cases hlc : env.lastCall = true
    · right; right
      refine ⟨(go_to_location p loc env.mode).1, w, (go_to_location p loc env.mode).2,
        hgo.1.trans hd, hgo.2.1, ?_, rfl, rfl, rfl⟩
      simp [runIter, hcl, hlc]
    · left
      refine ⟨(go_to_location p loc env.mode).1, w, (go_to_location p loc env.mode).2,
        ?_, hgo.1.trans hd, hgo.2.1, rfl, rfl, rfl⟩
      simp [runIter, hcl, hlc]
  · have hst := stay_in_activity_frame (go_to_location p loc env.mode).1 w env.rolls
    by_cases hsd :
        (stay_in_activity (go_to_location p loc env.mode).1 w env.rolls).1.is_dead = true
    · right; left
      refine ⟨(stay_in_activity (go_to_location p loc env.mode).1 w env.rolls).1,
        (stay_in_activity (go_to_location p loc env.mode).1 w env.rolls).2,
        (go_to_location p loc env.mode).2,
        ?_, hsd, hst.1.trans hgo.2.1, hst.2.2.1, hst.2.2.2.1, hst.2.2.2.2⟩
      simp [runIter, hcl, hsd]
    · have hsd2 :
          (stay_in_activity (go_to_location p loc env.mode).1 w env.rolls).1.is_dead
            = false := by
        cases h : (stay_in_activity (go_to_location p loc env.mode).1 w env.rolls).1.is_dead
        · rfl
        · exact absurd h hsd
      by_cases hlc : env.lastCall = true
      · right; right
        refine ⟨{ (stay_in_activity (go_to_location p loc env.mode).1 w env.rolls).1
              with current_location := none },
          (stay_in_activity (go_to_location p loc env.mode).1 w env.rolls).2,
          ((go_to_location p loc env.mode).2).leave,
          hsd2, hst.1.trans hgo.2.1, ?_, hst.2.2.1, hst.2.2.2.1, hst.2.2.2.2⟩
        simp [runIter, hcl, hsd, hlc]
      · left
        refine ⟨{ (stay_in_activity (go_to_location p loc env.mode).1 w env.rolls).1
              with current_location := none },
          (stay_in_activity (go_to_location p loc env.mode).1 w env.rolls).2,
          ((go_to_location p loc env.mode).2).leave,
          ?_, hsd2, hst.1.trans hgo.2.1, hst.2.2.1, hst.2.2.2.1, hst.2.2.2.2⟩
        simp [runIter, hcl, hsd, hlc]

/-- Invariants of the ashore loop, for a passenger who starts ashore not on
board: the return phase is called at most once; the loop never appends to
the stranded registry; the passenger ends on board exactly when a board
event happened; the boarded/stranded counters move exactly with the board
and miss events; board and miss exclude each other; a drunk-reaction delay
implies the passenger was inebriated. -/
theorem runLoop_spec (iters : List IterEnv) (p : Passenger) (w : World)
    (hb : p.on_board = false) :
    (((runLoop p w iters).evs.count PEvent.returnCall) ≤ 1)
    ∧ (PEvent.regAppend ∉ (runLoop p w iters).evs)
    ∧ ((runLoop p w iters).p.on_board = true
        ↔ PEvent.boardEvt ∈ (runLoop p w iters).evs)
    ∧ (PEvent.boardEvt ∈ (runLoop p w iters).evs →
        (runLoop p w iters).p.is_dead = false
        ∧ (runLoop p w iters).w.stats.boarded = w.stats.boarded + 1)
    ∧ (PEvent.boardEvt ∉ (runLoop p w iters).evs →
        (runLoop p w iters).w.stats.boarded = w.stats.boarded)
    ∧ (PEvent.missEvt ∈ (runLoop p w iters).evs →
        (runLoop p w iters).w.stats.stranded = w.stats.stranded + 1
        ∧ (runLoop p w iters).p.on_board = false
        ∧ (runLoop p w iters).p.is_dead = false)
    ∧ (PEvent.missEvt ∉ (runLoop p w iters).evs →
        (runLoop p w iters).w.stats.stranded = w.stats.stranded)
    ∧ (¬(PEvent.boardEvt ∈ (runLoop p w iters).evs
        ∧ PEvent.missEvt ∈ (runLoop p w iters).evs))
    ∧ (PEvent.drunkDelay ∈ (runLoop p w iters).evs →
        (runLoop p w iters).p.was_drunk = true)
    ∧ ((runLoop p w iters).w.stranded_passengers = w.stranded_passengers) := by
  induction iters generalizing p w with
  | nil => simp [runLoop, hb]
  | cons env rest ih =>
      by_cases hd : p.is_dead = true
      · simp [runLoop, hd, hb]
      · have hdf : p.is_dead = false := by
          cases h : p.is_dead
          · rfl
          · exact absurd h hd
        rcases runIter_cases p w (choose_activity islandLocations env.locIdx) env hdf with
          ⟨p1, w1, loc1, heq, h1, h2, h3, h4, h5⟩ |
          ⟨p1, w1, loc1, heq, h1, h2, h3, h4, h5⟩ |
          ⟨q, v, loc1, hq1, hq2, heq, hv1, hv2, hv3⟩
        · -- the iteration continues: recurse
          have hres : runLoop p w (env :: rest) = runLoop p1 w1 rest := by
            simp [runLoop, hd, heq]
          have hb1 : p1.on_board = false := h2.trans hb
          obtain ⟨i1, i2, i3, i4, i5, i6, i7, i8, i9, i10⟩ := ih p1 w1 hb1
          rw [hres]
          refine ⟨i1, i2, i3, ?_, ?_, ?_, ?_, i8, i9, i10.trans h5⟩
          · intro hm
            exact ⟨(i4 hm).1, by rw [(i4 hm).2, h3]⟩
          · intro hm
            rw [i5 hm, h3]
          · intro hm
            exact ⟨by rw [(i6 hm).1, h4], (i6 hm).2.1, (i6 hm).2.2⟩
          · intro hm
            rw [i7 hm, h4]
        · -- the passenger died during the stay: the run halts
          have hres : runLoop p w (env :: rest) = ⟨p1, w1, []⟩ := by
            simp [runLoop, hd, heq]
          rw [hres]
          have hb1 : p1.on_board = false := h2.trans hb
          simp [hb1, h3, h4, h5]
        · -- the return phase ran and the run halts
          have hres : runLoop p w (env :: rest)
              = ⟨(return_to_ship q v env.ret).p, (return_to_ship q v env.ret).w,
                 PEvent.returnCall :: (return_to_ship q v env.ret).evs⟩ := by
            simp [runLoop, hd, heq]
          rw [hres]
          have hframe := return_to_ship_frame q v env.ret
          have hnc := return_to_ship_no_call q v env.ret
          have hbe := return_to_ship_boardEvt q v env.ret hq1
          have hme := return_to_ship_missEvt q v env.ret hq1
          have hdd := return_to_ship_drunkDelay q v env.ret
          have hqb : q.on_board = false := hq2.trans hb
          have hcnt : (return_to_ship q v env.ret).evs.count PEvent.returnCall = 0 :=
            List.count_eq_zero.mpr hnc.1
          cases hdep : env.ret.departed with
          | false =>
              have hbb := return_to_ship_board q v env.ret hq1 hdep
              have hmem : PEvent.boardEvt
                  ∈ PEvent.returnCall :: (return_to_ship q v env.ret).evs :=
                List.mem_cons_of_mem _ (hbe.mpr hdep)
              have hnmiss : PEvent.missEvt
                  ∉ PEvent.returnCall :: (return_to_ship q v env.ret).evs := by
                intro hm
                rcases List.mem_cons.mp hm with h | h
                · exact absurd h (by simp)
                · rw [hme.mp h] at hdep
                  exact absurd hdep (by simp)
              refine ⟨?_, ?_, ?_, ?_, ?_, ?_, ?_, ?_, ?_, ?_⟩
              · simp [List.count_cons, hcnt]
              · intro hm
                rcases List.mem_cons.mp hm with h | h
                · exact absurd h (by simp)
                · exact hnc.2 h
              · simp [hbb.1, hmem]
              · intro _
                exact ⟨hframe.1.trans hq1, by rw [hbb.2.1, hv1]⟩
              · intro hm
                exact absurd hmem hm
              · intro hm
                exact absurd hm hnmiss
              · intro _
                rw [hbb.2.2, hv2]
              · intro hpair
                exact absurd hpair.2 hnmiss
              · intro hm
                rcases List.mem_cons.mp hm with h | h
                · exact absurd h (by simp)
                · exact (hframe.2.1).trans (hdd h)
              · rw [hframe.2.2.2.1, hv3]
          | true =>
              have hmm := return_to_ship_miss q v env.ret hq1 hdep
              have hmem : PEvent.missEvt
                  ∈ PEvent.returnCall :: (return_to_ship q v env.ret).evs :=
                List.mem_cons_of_mem _ (hme.mpr hdep)
              have hnboard : PEvent.boardEvt
                  ∉ PEvent.returnCall :: (return_to_ship q v env.ret).evs := by
                intro hm
                rcases List.mem_cons.mp hm with h | h
                · exact absurd h (by simp)
                · rw [hbe.mp h] at hdep
                  exact absurd hdep (by simp)
              have hob : (return_to_ship q v env.ret).p.on_board = false :=
                (hmm.1).trans hqb
              refine ⟨?_, ?_, ?_, ?_, ?_, ?_, ?_, ?_, ?_, ?_⟩
              · simp [List.count_cons, hcnt]
              · intro hm
                rcases List.mem_cons.mp hm with h | h
                · exact absurd h (by simp)
                · exact hnc.2 h
              · simp [hob, hnboard]
              · intro hm
                exact absurd hm hnboard
              · intro _
                rw [hmm.2.2, hv1]
              · intro _
                exact ⟨by rw [hmm.2.1, hv2], hob, hframe.1.trans hq1⟩
              · intro hm
                exact absurd hmem hm
              · intro hpair
                exact absurd hpair.1 hnboard
              · intro hm
                rcases List.mem_cons.mp hm with h | h
                · exact absurd h (by simp)
                · exact (hframe.2.1).trans (hdd h)
              · rw [hframe.2.2.2.1, hv3]

/-- `Passenger.runSim` either appends the passenger to the stranded
registry (when the loop ended with the passenger neither on board nor
dead) or returns the loop result unchanged. -/
theorem runSim_cases (p : Passenger) (w : World) (iters : List IterEnv)
    (hd : p.is_dead = false) :
    ((runLoop p w iters).p.on_board = false
      ∧ (runLoop p w iters).p.is_dead = false
      ∧ p.runSim w iters
        = ⟨(runLoop p w iters).p,
           { (runLoop p w iters).w with
              stranded_passengers := (runLoop p w iters).w.stranded_passengers
                ++ [(runLoop p w iters).p.passenger_id] },
           (runLoop p w iters).evs ++ [PEvent.regAppend]⟩)
    ∨ (((runLoop p w iters).p.on_board = true ∨ (runLoop p w iters).p.is_dead = true)
      ∧ p.runSim w iters = runLoop p w iters) := by
  cases hob : (runLoop p w iters).p.on_board <;>
    cases hid : (runLoop p w iters).p.is_dead
  · exact Or.inl ⟨rfl, rfl, by simp [Passenger.runSim, hd, hob, hid]⟩
  · exact Or.inr ⟨Or.inr rfl, by simp [Passenger.runSim, hd, hob, hid]⟩
  · exact Or.inr ⟨Or.inl rfl, by simp [Passenger.runSim, hd, hob, hid]⟩
  · exact Or.inr ⟨Or.inl rfl, by simp [Passenger.runSim, hd, hob, hid]⟩

/-- A passenger who starts not on board never ends both dead and on
board. -/
theorem runSim_not_both (p : Passenger) (w : World) (iters : List IterEnv)
    (hb : p.on_board = false) :
    ¬((p.runSim w iters).p.is_dead = true ∧ (p.runSim w iters).p.on_board = true) := by
  by_cases hd : p.is_dead = true
  · have heq : p.runSim w iters = ⟨p, w, []⟩ := by simp [Passenger.runSim, hd]
    rw [heq]
    intro hpair
    rw [hb] at hpair
    exact absurd hpair.2 (by simp)
  · have hdf : p.is_dead = false := by
      cases hx : p.is_dead
      · rfl
      · exact absurd hx hd
    obtain ⟨_, _, i3, i4, _, _, _, _, _, _⟩ := runLoop_spec iters p w hb
    rcases runSim_cases p w iters hdf with ⟨hob, hid, heq⟩ | ⟨hcase, heq⟩
    · rw [heq]
      intro hpair
      rw [hob] at hpair
      exact absurd hpair.2 (by simp)
    · rw [heq]
      intro hpair
      have hmem := i3.mp hpair.2
      have hidf := (i4 hmem).1
      rw [hidf] at hpair
      exact absurd hpair.1 (by simp)

/-- A list of passengers in which none is both dead and on board is
partitioned by the three outcome predicates. -/
theorem outcome_partition (l : List Passenger)
    (h : ∀ q ∈ l, ¬(q.is_dead = true ∧ q.on_board = true)) :
    (l.countP (fun q => q.on_board)
      + l.countP (fun q => !q.on_board && !q.is_dead)
      + l.countP (fun q => q.is_dead)) = l.length := by
  induction l with
  | nil => simp
  | cons q t ih =>
      have hq := h q (by simp)
      have ht : ∀ x ∈ t, ¬(x.is_dead = true ∧ x.on_board = true) :=
        fun x hx => h x (by simp [hx])
      have hrec := ih ht
      simp only [List.countP_cons, List.length_cons]
      cases hob : q.on_board <;> cases hid : q.is_dead <;> simp_all <;> omega

/-- C1: every passenger of a roster (each starting not on board, as
created) reaches exactly one terminal outcome — on board (Boarded), dead
(Dead), or neither (Stranded); the outcome sets are disjoint and their
sizes sum to the roster size. -/
theorem claim1_outcomes (roster : List (Passenger × List IterEnv)) (w : World)
    (h : ∀ x ∈ roster, x.1.on_board = false) :
    (∀ q ∈ roster.map (fun x => ((x.1).runSim w x.2).p),
        ((q.on_board = true ∧ q.is_dead = false)
          ∨ (q.on_board = false ∧ q.is_dead = true)
          ∨ (q.on_board = false ∧ q.is_dead = false)))
    ∧ (∀ q ∈ roster.map (fun x => ((x.1).runSim w x.2).p),
        ¬(q.is_dead = true ∧ q.on_board = true))
    ∧ ((roster.map (fun x => ((x.1).runSim w x.2).p)).countP (fun q => q.on_board)
        + (roster.map (fun x => ((x.1).runSim w x.2).p)).countP
            (fun q => !q.on_board && !q.is_dead)
        + (roster.map (fun x => ((x.1).runSim w x.2).p)).countP (fun q => q.is_dead))
        = roster.length := by
  have hnb : ∀ q ∈ roster.map (fun x => ((x.1).runSim w x.2).p),
      ¬(q.is_dead = true ∧ q.on_board = true) := by
    intro q hq
    rcases List.mem_map.mp hq with ⟨x, hx, rfl⟩
    exact runSim_not_both x.1 w x.2 (h x hx)
  refine ⟨?_, hnb, ?_⟩
  · intro q hq
    have hq2 := hnb q hq
    cases hob : q.on_board <;> cases hid : q.is_dead <;> simp_all
  · rw [outcome_partition _ hnb, List.length_map]

/-- Two-passenger roster instantiating C1: the first boards at last call,
the second dies on the hiking excursion. -/
def wRoster : List (Passenger × List IterEnv) :=
  [ ((PassengerFactory.create 1001 1 "young" "female" 80 Stats.empty).1,
     [{ locIdx := 7, mode := .walk
        rolls := { cliffRoll := false, sharkRoll := false, intoxRoll := false
                   drunkRoll := false, popupRoll := false, lostRoll := false
                   snorkelRoll := false, asleepRoll := false }
        lastCall := true
        ret := { drunkRoll := false, departed := false } }]),
    ((PassengerFactory.create 1002 1 "adult" "male" 60 Stats.empty).1,
     [{ locIdx := 5, mode := .bus
        rolls := { cliffRoll := true, sharkRoll := false, intoxRoll := false
                   drunkRoll := false, popupRoll := false, lostRoll := false
                   snorkelRoll := false, asleepRoll := false }
        lastCall := false
        ret := { drunkRoll := false, departed := false } }]) ]

/-- Witness for C1 on a concrete two-passenger roster. -/
theorem claim1_outcomes_witness :
    (∀ x ∈ wRoster, x.1.on_board = false)
    ∧ ((wRoster.map (fun x => ((x.1).runSim World.empty x.2).p)).countP
          (fun q => q.on_board)
        + (wRoster.map (fun x => ((x.1).runSim World.empty x.2).p)).countP
            (fun q => !q.on_board && !q.is_dead)
        + (wRoster.map (fun x => ((x.1).runSim World.empty x.2).p)).countP
            (fun q => q.is_dead))
        = wRoster.length :=
  ⟨by decide, (claim1_outcomes wRoster World.empty (by decide)).2.2⟩

/-- C5: for a passenger who starts not on board — (i) the return phase is
entered at most once in the whole run; (ii) inside the phase the events
are, in order, an optional drunk-reaction delay (possible only if the
passenger was inebriated), then the urgent taxi suspension, then the
decision taken by re-checking `departed` (board if unset, miss if set);
(iii) a drunk delay in the run implies the passenger was inebriated;
(iv) on a board decision the passenger is on board, the boarded counter
grew by exactly one and no registry append happened; (v) on a miss
decision the stranded counter grew by exactly one and the passenger was
appended to the stranded registry exactly once. -/
theorem claim5_return_phase (p : Passenger) (w : World) (iters : List IterEnv)
    (hb : p.on_board = false) :
    (((p.runSim w iters).evs.count PEvent.returnCall) ≤ 1)
    ∧ (∀ (q : Passenger) (v : World) (renv : ReturnEnv), q.is_dead = false →
        ∃ d : List PEvent,
          (d = [] ∨ (q.was_drunk = true ∧ d = [PEvent.drunkDelay]))
          ∧ (return_to_ship q v renv).evs
              = d ++ [PEvent.taxiRide]
                ++ [if renv.departed then PEvent.missEvt else PEvent.boardEvt])
    ∧ (PEvent.drunkDelay ∈ (p.runSim w iters).evs →
        (p.runSim w iters).p.was_drunk = true)
    ∧ (PEvent.boardEvt ∈ (p.runSim w iters).evs →
        (p.runSim w iters).p.on_board = true
        ∧ (p.runSim w iters).w.stats.boarded = w.stats.boarded + 1
        ∧ PEvent.regAppend ∉ (p.runSim w iters).evs)
    ∧ (PEvent.missEvt ∈ (p.runSim w iters).evs →
        (p.runSim w iters).w.stats.stranded = w.stats.stranded + 1
        ∧ (p.runSim w iters).evs.count PEvent.regAppend = 1) := by
  by_cases hd : p.is_dead = true
  · have heq : p.runSim w iters = ⟨p, w, []⟩ := by simp [Passenger.runSim, hd]
    rw [heq]
    exact ⟨by simp, fun q v renv hqd => return_to_ship_evs_shape q v renv hqd,
      by simp, by simp, by simp⟩
  · have hdf : p.is_dead = false := by
      cases hx : p.is_dead
      · rfl
      · exact absurd hx hd
    obtain ⟨i1, i2, i3, i4, i5, i6, i7, i8, i9, i10⟩ := runLoop_spec iters p w hb
    rcases runSim_cases p w iters hdf with ⟨hob, hid, heq⟩ | ⟨hcase, heq⟩
    · rw [heq]
      refine ⟨?_, fun q v renv hqd => return_to_ship_evs_shape q v renv hqd, ?_, ?_, ?_⟩
      · simp only [List.count_append]
        simpa using i1
      · intro hm
        simp only [List.mem_append] at hm
        rcases hm with hm | hm
        · exact i9 hm
        · exact absurd hm (by simp)
      · intro hm
        simp only [List.mem_append] at hm
        rcases hm with hm | hm
        · exact absurd (i3.mpr hm) (by rw [hob]; simp)
        · exact absurd hm (by simp)
      · intro hm
        simp only [List.mem_append] at hm
        rcases hm with hm | hm
        · refine ⟨by rw [(i6 hm).1], ?_⟩
          simp only [List.count_append]
          rw [List.count_eq_zero.mpr i2]
          simp
        · exact absurd hm (by simp)
    · rw [heq]
      refine ⟨i1, fun q v renv hqd => return_to_ship_evs_shape q v renv hqd, i9, ?_, ?_⟩
      · intro hm
        exact ⟨i3.mpr hm, (i4 hm).2, i2⟩
      · intro hm
        have h6 := i6 hm
        rcases hcase with hcase | hcase
        · exact absurd hcase (by rw [h6.2.1]; simp)
        · exact absurd hcase (by rw [h6.2.2]; simp)

/-- Passenger and oracle instantiating C5: one iteration, last call
observed, `departed` set at the re-check — the passenger misses the ship. -/
def wPass : Passenger := (PassengerFactory.create 2001 2 "adult" "female" 70 Stats.empty).1

/-- Single-iteration oracle for the C5 witness. -/
def wIters : List IterEnv :=
  [{ locIdx := 7, mode := .taxi
     rolls := { cliffRoll := false, sharkRoll := false, intoxRoll := false
                drunkRoll := false, popupRoll := false, lostRoll := false
                snorkelRoll := false, asleepRoll := false }
     lastCall := true
     ret := { drunkRoll := false, departed := true } }]

/-- Witness for C5: the return phase ran once and the miss decision bumped
the stranded counter and the registry exactly once. -/
theorem claim5_return_phase_witness :
    (wPass.on_board = false)
    ∧ ((wPass.runSim World.empty wIters).evs.count PEvent.returnCall ≤ 1)
    ∧ (PEvent.missEvt ∈ (wPass.runSim World.empty wIters).evs →
        (wPass.runSim World.empty wIters).w.stats.stranded
            = World.empty.stats.stranded + 1
        ∧ (wPass.runSim World.empty wIters).evs.count PEvent.regAppend = 1) :=
  ⟨by decide, (claim5_return_phase wPass World.empty wIters (by decide)).1,
   (claim5_return_phase wPass World.empty wIters (by decide)).2.2.2.2⟩

/-- Witness for C7: two stranded combatants of strengths 100 and 50 — one
match, one survivor; and of the 150 equally likely draws, exactly 100 make
the stronger combatant win. -/
theorem claim7_tournament_witness :
    ([Fighter.mk 1 100, Fighter.mk 2 50] ≠ ([] : List Fighter))
    ∧ (HungerGames.run (fun _ => 60) [Fighter.mk 1 100, Fighter.mk 2 50]).1.length
        = [Fighter.mk 1 100, Fighter.mk 2 50].length - 1
    ∧ (HungerGames.run (fun _ => 60) [Fighter.mk 1 100, Fighter.mk 2 50]).2.length = 1
    ∧ (Fighter.mk 1 100 ≠ Fighter.mk 2 50)
    ∧ ((Finset.Icc 1 ((Fighter.mk 1 100).strength + (Fighter.mk 2 50).strength)).filter
          (fun r => fightWinner (Fighter.mk 1 100) (Fighter.mk 2 50) r
            = Fighter.mk 1 100)).card
        = (Fighter.mk 1 100).strength :=
  ⟨by decide,
   ((claim7_tournament (fun _ => 60) [Fighter.mk 1 100, Fighter.mk 2 50]).2.1
      (by decide)).1,
   ((claim7_tournament (fun _ => 60) [Fighter.mk 1 100, Fighter.mk 2 50]).2.1
      (by decide)).2,
   by decide,
   (claim7_tournament (fun _ => 60) [Fighter.mk 1 100, Fighter.mk 2 50]).2.2
     (Fighter.mk 1 100) (Fighter.mk 2 50) (by decide)⟩
